import Mathlib

set_option maxRecDepth 10000

/-!
# Verification of the voice capture and validation pipeline

Shallow embedding of the voice recorder composable (`useVoiceRecorder`) of
this repository: the audio validator `validateAudio`, the duration
estimator `getAudioDuration`, the payload builder `createVoiceMessage`,
the recording lifecycle functions `startRecording` / `stopRecording` /
`forceStop` / `cleanup` / `closingAudioContext`, the 1-second timer tick of
`startTimer`, and the `ondataavailable` chunk handler.

Browser-environment outcomes that the code merely observes (the result of
`decodeAudioData`, the metadata duration reported by an `Audio` element,
`getUserMedia` success, codec support probes) are supplied as explicit
oracle values in an `Env` record.  JavaScript numbers are modelled as `ℚ`
(amplitudes, durations) and `ℤ`/`ℕ` (byte sizes, integer seconds); `%`-free
arithmetic in the source never overflows.  Observable actions (stopping a
hardware track, closing the audio context, UI notifications, handing a
payload to the realtime message sink) are recorded in an effect trace.
-/

/-- `readyState` of a `MediaStreamTrack`. -/
inductive TrackState where
  | live
  | ended
deriving DecidableEq, Repr

/-- A `MediaStreamTrack`: only its `readyState` is relevant. `stop()` moves
`live` to `ended` and releases the hardware. -/
structure Track where
  readyState : TrackState
deriving DecidableEq, Repr

/-- `MediaRecorder.state` (the recorder is never paused in this code). -/
inductive RecState where
  | inactive
  | recording
deriving DecidableEq, Repr

/-- A `MediaRecorder`: lifecycle state plus the negotiated MIME type. -/
structure MediaRec where
  state : RecState
  mimeType : String
deriving DecidableEq, Repr

/-- `AudioContext.state`. -/
inductive CtxState where
  | running
  | closed
deriving DecidableEq, Repr

/-- One chunk delivered by `ondataavailable` (`event.data`): a byte string. -/
structure Chunk where
  data : List Nat
deriving DecidableEq, Repr

/-- `Blob.size` of a chunk. -/
def Chunk.size (c : Chunk) : Nat := c.data.length

/-- A `Blob`: bytes plus the `type` it was constructed with. -/
structure Blob where
  bytes : List Nat
  mime : String
deriving DecidableEq, Repr

/-- `Blob.size`. -/
def Blob.size (b : Blob) : Nat := b.bytes.length

/-- The PCM data a successful `decodeAudioData` yields: channel-0 samples
and the decoded duration in seconds (`AudioBuffer.duration`). -/
structure DecodedAudio where
  samples : List ℚ
  duration : ℚ
deriving DecidableEq, Repr

/-- Lifecycle events of the transient decode `AudioContext` allocated by
`validateAudio`. -/
inductive CtxEvent where
  | allocated
  | closed
deriving DecidableEq, Repr

/-! ## AudioValidator (`validateAudio`)

The sample-analysis loop of the source:

```
for (let i = 0; i < channelData.length; i++) {
  const sample = Math.abs(channelData[i])
  sum += sample
  peak = Math.max(peak, sample)
  if (sample > 0.001) nonZeroSamples++
}
```
-/

/-- The single-pass analysis loop over channel-0 samples, returning
`(sum, peak, nonZeroSamples)`. -/
def analyzeSamples (channelData : List ℚ) : ℚ × ℚ × Nat :=
  channelData.foldl
    (fun acc x =>
      let sample := |x|
      (acc.1 + sample, max acc.2.1 sample, acc.2.2 + (if sample > 0.001 then 1 else 0)))
    (0, 0, 0)

/-- Sum of absolute amplitudes of a sample list (specification-side view of
the loop's `sum`). -/
def sumAbs (channelData : List ℚ) : ℚ := (channelData.map (fun x => |x|)).sum

/-- Peak absolute amplitude (specification-side view of the loop's `peak`). -/
def peakAbs (channelData : List ℚ) : ℚ := (channelData.map (fun x => |x|)).foldr max 0

/-- Number of samples whose absolute amplitude exceeds the 0.001 noise
floor (specification-side view of the loop's `nonZeroSamples`). -/
def noiseCount (channelData : List ℚ) : Nat :=
  (channelData.filter (fun x => |x| > (0.001 : ℚ))).length

/-- Average absolute amplitude over all channel-0 samples. -/
def averageAmplitude (channelData : List ℚ) : ℚ := sumAbs channelData / channelData.length

/-- Fraction of samples above the 0.001 noise floor ("content ratio"). -/
def contentRatio (channelData : List ℚ) : ℚ := (noiseCount channelData : ℚ) / channelData.length

/-- `validateAudio`, with the transient decode-context trace made explicit.

`decode` is the environment's outcome for `decodeAudioData` on this blob
(`none` models the decode throwing).  Returns the boolean decision together
with the decode `AudioContext` lifecycle events on the taken path.  Mirrors
the source exactly:

* size below 500 bytes: return `false` before allocating the context;
* decode success: one-pass analysis, `await audioContext.close()`, then
  `(hasAverage || hasPeak || hasContent) && hasMinDuration`;
* decode failure (`catch`): fallback `size > 500 && size / 16000 > 0.5`;
  note the source's `catch` path returns without closing the context. -/
def validateAudioRun (decode : Option DecodedAudio) (audioBlob : Blob) :
    Bool × List CtxEvent :=
  if audioBlob.size < 500 then
    (false, [])
  else
    -- const audioContext = new AudioContextClass()
    match decode with
    | some audioBuffer =>
      let channelData := audioBuffer.samples
      let res := analyzeSamples channelData
      let average := res.1 / (channelData.length : ℚ)
      let peak := res.2.1
      let nonZeroRatio := (res.2.2 : ℚ) / (channelData.length : ℚ)
      -- await audioContext.close()
      let hasAverage := average > 0.001
      let hasPeak := peak > 0.01
      let hasContent := nonZeroRatio > 0.1
      let hasMinDuration := audioBuffer.duration > 0.5
      (decide ((hasAverage ∨ hasPeak ∨ hasContent) ∧ hasMinDuration),
       [CtxEvent.allocated, CtxEvent.closed])
    | none =>
      -- catch: fallback validation (the allocated context is not closed here)
      let estimatedDuration := (audioBlob.size : ℚ) / 16000
      (decide (audioBlob.size > 500 ∧ estimatedDuration > 0.5), [CtxEvent.allocated])

/-- The boolean decision of `validateAudio`. -/
def validateAudio (decode : Option DecodedAudio) (audioBlob : Blob) : Bool :=
  (validateAudioRun decode audioBlob).1

/-! ## Data model of the recording session -/

/-- The structured voice message object built by `createVoiceMessage`
(type `VoiceMessage` in `types/chat`): `duration` is an integer because
both duration paths produce `Math.round`/`Math.floor` results. -/
structure VoiceMessage where
  id : String
  type : String
  nickname : String
  audioData : String
  mimeType : String
  duration : ℤ
  timestamp : Nat
  isOwn : Bool
deriving DecidableEq, Repr

/-- The reactive state of the recorder composable plus the chat-store
fields it drives.  `recordingTimer = some d` models a live `setInterval`
whose closure-local `duration` counter currently holds `d`;
`storeIsRecording` / `recordingDuration` are `chatStore.isRecording` /
`chatStore.recordingDuration`. -/
structure VMState where
  mediaRecorder : Option MediaRec
  audioStream : Option (List Track)
  recordingTimer : Option Nat
  audioChunks : List Chunk
  isRecordingActive : Bool
  audioContext : Option CtxState
  gainNode : Bool
  compressorNode : Bool
  storeIsRecording : Bool
  recordingDuration : Nat
  userNickname : String
  messages : List VoiceMessage
deriving DecidableEq, Repr

/-- Observable actions of the recorder, in program order. -/
inductive Effect where
  | getUserMedia
  | trackStop
  | setRecordingState (b : Bool)
  | updateDuration (n : Nat)
  | ctxClose
  | recorderStop
  | storeAdd (m : VoiceMessage)
  | sinkAccept (m : VoiceMessage)
  | alertNoAudio
  | scheduleProcess (delayMs : Nat)
deriving DecidableEq, Repr

/-- Environment oracle: outcomes of the browser calls the code merely
observes.  `decode` is the `decodeAudioData` result for the finalized blob
(`none` = throws); `metadataDuration` is the duration the probe `Audio`
element reports via `onloadedmetadata` (`none` = the 3-second timeout or
`onerror` path); `media` is the `getUserMedia` result (`none` = rejected);
`isTypeSupported` is `MediaRecorder.isTypeSupported`; `processingOk` is
whether the `setupAudioProcessing` try-block runs to completion, with
`processedTracks` the tracks of its `MediaStreamDestination`; `now` is
`Date.now()`. -/
structure Env where
  decode : Option DecodedAudio
  metadataDuration : Option ℚ
  media : Option (List Track)
  isTypeSupported : String → Bool
  processingOk : Bool
  processedTracks : List Track
  now : Nat

/-- JavaScript `a || b` for strings (`undefined`/empty string falls back). -/
def jsOrStr (a : Option String) (b : String) : String :=
  match a with
  | some v => if v = "" then b else v
  | none => b

/-- `chatStore.setRecordingState`: sets the flag and, when turning
recording off, resets `recordingDuration` to 0. -/
def setRecordingState (recording : Bool) (s : VMState) : VMState × List Effect :=
  ({ s with
      storeIsRecording := recording
      recordingDuration := if recording then s.recordingDuration else 0 },
   [Effect.setRecordingState recording])

/-- `chatStore.updateRecordingDuration`. -/
def updateRecordingDuration (duration : Nat) (s : VMState) : VMState × List Effect :=
  ({ s with recordingDuration := duration }, [Effect.updateDuration duration])

/-- `tracks.forEach(track => { if (track.readyState === 'live') track.stop() })`:
every live track is stopped (one `trackStop` effect each, hardware release);
already-ended tracks are untouched. -/
def stopTracks : List Track → List Track × List Effect
  | [] => ([], [])
  | t :: ts =>
    let rest := stopTracks ts
    if t.readyState = TrackState.live then
      (⟨TrackState.ended⟩ :: rest.1, Effect.trackStop :: rest.2)
    else
      (t :: rest.1, rest.2)

/-- Number of live tracks in an optional stream. -/
def liveCount (stream : Option (List Track)) : Nat :=
  ((stream.getD []).filter (fun t => t.readyState = TrackState.live)).length

/-- Number of `trackStop` effects in a trace. -/
def trackStops (es : List Effect) : Nat :=
  (es.filter (fun e => e = Effect.trackStop)).length

/-- `closingAudioContext`: when the context's state is not `'closed'`
(including when no context is held — optional chaining yields `undefined`),
close it and null the context, gain and compressor refs.  A real `close()`
call is observable only when a running context exists; `close` is modelled
as non-throwing. -/
def closingAudioContext (s : VMState) : VMState × List Effect :=
  if s.audioContext = some CtxState.closed then
    (s, [])
  else
    ({ s with audioContext := none, gainNode := false, compressorNode := false },
     match s.audioContext with
     | some CtxState.running => [Effect.ctxClose]
     | _ => [])

/-- The MediaRecorder teardown of `stopRecording`:
`if (mediaRecorder.value?.state === 'recording') mediaRecorder.value?.stop()`. -/
def stopRecorderIfRecording (s : VMState) : VMState × List Effect :=
  match s.mediaRecorder with
  | some r =>
    if r.state = RecState.recording then
      ({ s with mediaRecorder := some { r with state := RecState.inactive } },
       [Effect.recorderStop])
    else (s, [])
  | none => (s, [])

/-- The MediaRecorder teardown of `forceStop` and `cleanup`:
`if (mediaRecorder.value?.state !== 'inactive') mediaRecorder.value?.stop()`
(with no recorder the guard is taken but `?.stop()` is a no-op). -/
def stopRecorderIfNotInactive (s : VMState) : VMState × List Effect :=
  match s.mediaRecorder with
  | some r =>
    if r.state ≠ RecState.inactive then
      ({ s with mediaRecorder := some { r with state := RecState.inactive } },
       [Effect.recorderStop])
    else (s, [])
  | none => (s, [])

/-! ## Recording lifecycle (`forceStop`, `stopRecording`, timer, cleanup) -/

/-- `forceStop()`: unconditional teardown.  Flag off; timer cleared; UI off;
all live tracks stopped and the stream ref nulled; audio context closed;
MediaRecorder stopped when not already `'inactive'`; processing of captured
audio deferred by 100 ms (`scheduleProcess 100`). -/
def forceStop (s : VMState) : VMState × List Effect :=
  let s1 := { s with isRecordingActive := false, recordingTimer := none }
  let r2 := setRecordingState false s1
  let r3 :=
    match r2.1.audioStream with
    | some tracks =>
      let st := stopTracks tracks
      ({ r2.1 with audioStream := none }, st.2)
    | none => (r2.1, [])
  let r4 := closingAudioContext r3.1
  let r5 := stopRecorderIfNotInactive r4.1
  (r5.1, r2.2 ++ r3.2 ++ r4.2 ++ r5.2 ++ [Effect.scheduleProcess 100])

/-- `mediaRecorder.value?.state === 'recording'` (with no recorder the
optional chain yields `undefined`, so the comparison is `false`). -/
def recorderIsRecording (s : VMState) : Bool :=
  match s.mediaRecorder with
  | some r => r.state = RecState.recording
  | none => false

/-- `stopRecording()`: if the internal flag is off, act only as a
reconciliation signal — delegate to `forceStop` when the chat store still
says recording, a stream is still held, or the MediaRecorder reports
`'recording'`; otherwise do nothing.  If the flag is on: flip it off first
(before any awaited teardown), clear the timer, notify the UI, stop all
live tracks and null the stream, close the audio context, stop the
recorder when in `'recording'`, and defer processing by 200 ms. -/
def stopRecording (s : VMState) : VMState × List Effect :=
  if s.isRecordingActive = false then
    if s.storeIsRecording = true ∨ s.audioStream ≠ none ∨
        recorderIsRecording s = true then
      forceStop s
    else
      (s, [])
  else
    let s1 := { s with isRecordingActive := false, recordingTimer := none }
    let r2 := setRecordingState false s1
    let r3 :=
      match r2.1.audioStream with
      | some tracks =>
        let st := stopTracks tracks
        ({ r2.1 with audioStream := none }, st.2)
      | none => (r2.1, [])
    let r4 := closingAudioContext r3.1
    let r5 := stopRecorderIfRecording r4.1
    (r5.1, r2.2 ++ r3.2 ++ r4.2 ++ r5.2 ++ [Effect.scheduleProcess 200])

/-- One 1-second tick of the interval installed by `startTimer`.  With no
live interval nothing happens.  If the internal flag has gone off, the
interval clears itself.  Otherwise the closure-local counter is
incremented, the store is notified, and once the counter exceeds 30 the
tick itself invokes `stopRecording()` (auto-stop). -/
def timerTick (s : VMState) : VMState × List Effect :=
  match s.recordingTimer with
  | none => (s, [])
  | some duration =>
    if s.isRecordingActive = false then
      ({ s with recordingTimer := none }, [])
    else
      let d := duration + 1
      let r1 := updateRecordingDuration d { s with recordingTimer := some d }
      if d > 30 then
        let r2 := stopRecording r1.1
        (r2.1, r1.2 ++ r2.2)
      else
        (r1.1, r1.2)

/-- State after a tick (effects dropped). -/
def tickState (s : VMState) : VMState := (timerTick s).1

/-- Run `n` consecutive timer ticks, accumulating all effects. -/
def runTicks : Nat → VMState → VMState × List Effect
  | 0, s => (s, [])
  | n + 1, s =>
    let r := timerTick s
    let rest := runTicks n r.1
    (rest.1, r.2 ++ rest.2)

/-- `startTimer()`: reports duration 0 to the store and installs the
interval with its closure-local counter at 0. -/
def startTimer (s : VMState) : VMState × List Effect :=
  let r := updateRecordingDuration 0 s
  ({ r.1 with recordingTimer := some 0 }, r.2)

/-- `cleanup()`: full resource release — flag off, timer cleared, UI off,
live tracks stopped and stream nulled, audio context closed, MediaRecorder
stopped when not `'inactive'` and its ref nulled, chunk buffer cleared. -/
def cleanup (s : VMState) : VMState × List Effect :=
  let s1 := { s with isRecordingActive := false, recordingTimer := none }
  let r2 := setRecordingState false s1
  let r3 :=
    match r2.1.audioStream with
    | some tracks =>
      let st := stopTracks tracks
      ({ r2.1 with audioStream := none }, st.2)
    | none => (r2.1, [])
  let r4 := closingAudioContext r3.1
  let r5 := stopRecorderIfNotInactive r4.1
  ({ r5.1 with mediaRecorder := none, audioChunks := [] },
   r2.2 ++ r3.2 ++ r4.2 ++ r5.2)

/-- The `ondataavailable` handler installed by `startRecording`: a chunk is
appended only when it is non-empty and the internal recording flag is still
on. -/
def onDataAvailable (s : VMState) (eventData : Chunk) : VMState :=
  if eventData.size > 0 ∧ s.isRecordingActive = true then
    { s with audioChunks := s.audioChunks ++ [eventData] }
  else
    s

/-! ## Duration estimation, payload construction, processing -/

/-- The base64 alphabet. -/
def base64Chars : List Char :=
  "ABCDEFGHIJKLMNOPQRSTUVWXYZabcdefghijklmnopqrstuvwxyz0123456789+/".toList

/-- Character for a 6-bit group. -/
def b64c (n : Nat) : Char := base64Chars.getD n '?'

/-- Standard base64 of a byte sequence (what `FileReader.readAsDataURL`
produces after the `data:` prefix). -/
def base64Encode : List Nat → String
  | [] => ""
  | [a] =>
    String.mk [b64c (a / 4), b64c (a % 4 * 16), '=', '=']
  | [a, b] =>
    String.mk [b64c (a / 4), b64c (a % 4 * 16 + b / 16), b64c (b % 16 * 4), '=']
  | a :: b :: c :: rest =>
    String.mk [b64c (a / 4), b64c (a % 4 * 16 + b / 16),
               b64c (b % 16 * 4 + c / 64), b64c (c % 64)]
      ++ base64Encode rest

/-- `FileReader.readAsDataURL` on an in-memory blob: a data URL whose part
after the comma is the base64 payload.  Reading a freshly constructed
in-memory blob cannot fail, so the source's `onerror` branch is
unreachable and not modelled. -/
def readAsDataURL (audioBlob : Blob) : String :=
  "data:" ++ audioBlob.mime ++ ";base64," ++ base64Encode audioBlob.bytes

/-- `getAudioDuration`: the metadata duration when the probe reports a
plausible one (rounded to the nearest second, `Math.round`); otherwise —
timeout, load error, or implausible value (`!duration`, NaN, infinite,
`<= 0`) — the byte-size fallback `Math.max(1, Math.floor(size / 16000))`. -/
def getAudioDuration (env : Env) (audioBlob : Blob) : ℤ :=
  match env.metadataDuration with
  | none => max 1 (Int.ofNat (audioBlob.size / 16000))
  | some d =>
    if d ≤ 0 then max 1 (Int.ofNat (audioBlob.size / 16000))
    else round d

/-- `createVoiceMessage`: computes the duration, clamps it to `[1, 30]`,
base64-encodes the blob, builds the `VoiceMessage`, appends it to the chat
store (`addMessage`) and hands it to the realtime sink
(`sendVoiceMessage`). -/
def createVoiceMessage (env : Env) (audioBlob : Blob) (s : VMState) :
    VMState × List Effect :=
  let duration := getAudioDuration env audioBlob
  let validatedDuration := max 1 (min 30 duration)
  let base64Data := ((readAsDataURL audioBlob).splitOn ",").getD 1 ""
  let message : VoiceMessage :=
    { id := toString env.now
      type := "VOICE_MESSAGE"
      nickname := s.userNickname
      audioData := base64Data
      mimeType := jsOrStr (some audioBlob.mime) "audio/webm"
      duration := validatedDuration
      timestamp := env.now
      isOwn := true }
  ({ s with messages := s.messages ++ [message] },
   [Effect.storeAdd message, Effect.sinkAccept message])

/-- `new Blob(audioChunks, { type: mediaRecorder.value?.mimeType || 'audio/webm' })`. -/
def recordingBlob (s : VMState) : Blob :=
  { bytes := (s.audioChunks.map Chunk.data).flatten
    mime := jsOrStr (s.mediaRecorder.map MediaRec.mimeType) "audio/webm" }

/-- `processRecording()`: with no captured chunks, clean up and return.
Otherwise build the blob, validate it; on success create and send the
voice message, on rejection raise the "no audio detected" advisory; in all
cases (`finally`) clean up. -/
def processRecording (env : Env) (s : VMState) : VMState × List Effect :=
  if s.audioChunks.length = 0 then
    cleanup s
  else
    let audioBlob := recordingBlob s
    let isValid := validateAudio env.decode audioBlob
    let r1 :=
      if isValid then
        createVoiceMessage env audioBlob s
      else
        (s, [Effect.alertNoAudio])
    let r2 := cleanup r1.1
    (r2.1, r1.2 ++ r2.2)

/-- The payloads handed to the realtime message sink in a trace. -/
def sentPayloads (es : List Effect) : List VoiceMessage :=
  es.filterMap (fun e =>
    match e with
    | Effect.sinkAccept m => some m
    | _ => none)

/-! ## startRecording -/

/-- The ordered codec preference list probed at `startRecording` time. -/
def preferredMimeTypes : List String :=
  ["audio/webm;codecs=opus", "audio/ogg;codecs=opus", "audio/mp4"]

/-- `setupAudioProcessing`: on success a running `AudioContext` with
compressor and gain nodes is installed and, when the destination produced
tracks, they replace the stream's original tracks.  The try-block failing
(`processingOk = false`) leaves the original stream in use (conditioning
is best-effort).  Returns the updated state and the tracks the recorder
will consume. -/
def setupAudioProcessing (env : Env) (stream : List Track) (s : VMState) :
    VMState × List Track :=
  if env.processingOk then
    let s1 := { s with audioContext := some CtxState.running }
    if env.processedTracks.length > 0 then
      ({ s1 with gainNode := true, compressorNode := true }, env.processedTracks)
    else
      (s1, stream)
  else
    (s, stream)

/-- `startRecording()`: refuses (returns `false`) immediately when a
recording is already active, before any cleanup or device access.
Otherwise: clear previous state, request the microphone (`getUserMedia`;
on rejection clean up and return `false`), condition the stream, select
the first supported MIME type (default `audio/webm`), create and start the
MediaRecorder with 250 ms chunking, flag the UI, and start the timer. -/
def startRecording (env : Env) (s : VMState) : Bool × VMState × List Effect :=
  if s.isRecordingActive = true then
    (false, s, [])
  else
    let r1 := cleanup s
    match env.media with
    | none =>
      -- getUserMedia rejected: catch → cleanup → false
      let r2 := cleanup r1.1
      (false, r2.1, r1.2 ++ [Effect.getUserMedia] ++ r2.2)
    | some stream =>
      let p := setupAudioProcessing env stream r1.1
      let s3 := { p.1 with
                    audioStream := some p.2
                    audioChunks := []
                    isRecordingActive := true }
      let mimeType := (preferredMimeTypes.find? env.isTypeSupported).getD "audio/webm"
      let s4 := { s3 with
                    mediaRecorder := some { state := RecState.recording, mimeType := mimeType } }
      let r5 := setRecordingState true s4
      let r6 := startTimer r5.1
      (true, r6.1, r1.2 ++ [Effect.getUserMedia] ++ r5.2 ++ r6.2)

/-! ## Concrete states and environments used by witnesses -/

/-- Timer invariant: whenever a live interval's closure counter is `d` and
recording is still active, `d ≤ 30`. -/
def timerInv (s : VMState) : Prop :=
  ∀ d, s.recordingTimer = some d → s.isRecordingActive = true → d ≤ 30

/-- Concrete Recording state used by the C3 witness and counterexample:
fresh session, timer counter 0. -/
def recordingStart : VMState :=
  { mediaRecorder := some { state := RecState.recording, mimeType := "audio/webm" }
    audioStream := some [{ readyState := TrackState.live }]
    recordingTimer := some 0
    audioChunks := []
    isRecordingActive := true
    audioContext := some CtxState.running
    gainNode := true
    compressorNode := true
    storeIsRecording := true
    recordingDuration := 0
    userNickname := "alice"
    messages := [] }

/-- Concrete idle state (all resources released) for witnesses. -/
def idleState : VMState :=
  { mediaRecorder := none
    audioStream := none
    recordingTimer := none
    audioChunks := []
    isRecordingActive := false
    audioContext := none
    gainNode := false
    compressorNode := false
    storeIsRecording := false
    recordingDuration := 0
    userNickname := "alice"
    messages := [] }

/-- Concrete environment oracle for witnesses. -/
def probeEnv : Env :=
  { decode := none
    metadataDuration := none
    media := none
    isTypeSupported := fun _ => false
    processingOk := false
    processedTracks := []
    now := 0 }

/-! ## Lemmas about the sample-analysis loop -/

@[simp] lemma sumAbs_nil : sumAbs [] = 0 := rfl

@[simp] lemma sumAbs_cons (x : ℚ) (xs : List ℚ) : sumAbs (x :: xs) = |x| + sumAbs xs := by
  simp [sumAbs]

@[simp] lemma peakAbs_nil : peakAbs [] = 0 := rfl

@[simp] lemma peakAbs_cons (x : ℚ) (xs : List ℚ) :
    peakAbs (x :: xs) = max |x| (peakAbs xs) := by
  simp [peakAbs]

@[simp] lemma noiseCount_nil : noiseCount [] = 0 := rfl

@[simp] lemma noiseCount_cons (x : ℚ) (xs : List ℚ) :
    noiseCount (x :: xs) = (if |x| > (0.001 : ℚ) then 1 else 0) + noiseCount xs := by
  by_cases hx : |x| > (0.001 : ℚ) <;> simp [noiseCount, hx, Nat.add_comm]

lemma peakAbs_nonneg (channelData : List ℚ) : 0 ≤ peakAbs channelData := by
  induction channelData with
  | nil => exact le_rfl
  | cons x xs ih => simp only [peakAbs_cons]; exact le_max_of_le_right ih

lemma analyzeSamples_go (channelData : List ℚ) (a p : ℚ) (c : Nat) (hp : 0 ≤ p) :
    channelData.foldl
      (fun acc x =>
        let sample := |x|
        (acc.1 + sample, max acc.2.1 sample, acc.2.2 + (if sample > 0.001 then 1 else 0)))
      (a, p, c)
    = (a + sumAbs channelData, max p (peakAbs channelData), c + noiseCount channelData) := by
  induction channelData generalizing a p c with
  | nil => simp [max_eq_left hp]
  | cons x xs ih =>
    simp only [List.foldl_cons]
    rw [ih (a + |x|) (max p |x|) _ (le_max_of_le_right (abs_nonneg x))]
    simp only [Prod.mk.injEq, sumAbs_cons, peakAbs_cons, noiseCount_cons]
    refine ⟨by ring, by rw [max_assoc], by omega⟩

/-- The one-pass loop computes exactly the three aggregate statistics. -/
lemma analyzeSamples_eq (channelData : List ℚ) :
    analyzeSamples channelData =
      (sumAbs channelData, peakAbs channelData, noiseCount channelData) := by
  have := analyzeSamples_go channelData 0 0 0 le_rfl
  simpa [analyzeSamples, max_eq_right (peakAbs_nonneg channelData)] using this

/-! ## Trace-shape helper lemmas -/

@[simp] lemma trackStops_nil : trackStops [] = 0 := rfl

@[simp] lemma trackStops_append (a b : List Effect) :
    trackStops (a ++ b) = trackStops a + trackStops b := by
  simp [trackStops]

@[simp] lemma trackStops_replicate (n : Nat) :
    trackStops (List.replicate n Effect.trackStop) = n := by
  simp [trackStops, List.filter_replicate]

lemma stopTracks_effects (ts : List Track) :
    (stopTracks ts).2 =
      List.replicate ((ts.filter (fun t => t.readyState = TrackState.live)).length)
        Effect.trackStop := by
  induction ts with
  | nil => rfl
  | cons t ts ih =>
    by_cases h : t.readyState = TrackState.live <;>
      simp [stopTracks, h, ih, List.replicate_succ]

/-! ## C1, C6, C9 — the audio validator -/

/-- C1.  Every clip below 500 bytes is rejected regardless of content; a
clip of at least 500 bytes that decodes successfully is accepted exactly
when (average absolute amplitude > 0.001 OR peak > 0.01 OR the fraction of
samples above the 0.001 noise floor > 10%) AND the decoded duration
exceeds 0.5 s; in particular a successfully decoded clip with duration
≤ 0.5 s is rejected however high its amplitude. -/
theorem validateAudio_decision (audioBlob : Blob) (d : DecodedAudio)
    (dec : Option DecodedAudio) :
    (audioBlob.size < 500 → validateAudio dec audioBlob = false)
    ∧ (500 ≤ audioBlob.size →
        (validateAudio (some d) audioBlob = true ↔
          ((averageAmplitude d.samples > 0.001 ∨ peakAbs d.samples > 0.01 ∨
            contentRatio d.samples > 0.1) ∧ d.duration > 0.5)))
    ∧ (500 ≤ audioBlob.size → d.duration ≤ 0.5 →
        validateAudio (some d) audioBlob = false) := by
  have hiff : 500 ≤ audioBlob.size →
      (validateAudio (some d) audioBlob = true ↔
        ((averageAmplitude d.samples > 0.001 ∨ peakAbs d.samples > 0.01 ∨
          contentRatio d.samples > 0.1) ∧ d.duration > 0.5)) := by
    intro h
    have h' : ¬ audioBlob.size < 500 := not_lt.mpr h
    simp [validateAudio, validateAudioRun, h', analyzeSamples_eq,
      averageAmplitude, contentRatio]
  refine ⟨fun h => ?_, hiff, fun h hd => ?_⟩
  · cases dec <;> simp [validateAudio, validateAudioRun, h]
  · rcases hv : validateAudio (some d) audioBlob with _ | _
    · rfl
    · exact absurd ((hiff h).mp hv).2 (not_lt.mpr hd)

/-- Witness for C1 at concrete inputs: a 1-byte clip is rejected; a
500-byte clip decoding to a loud 1-second sample is accepted; the same
clip decoding to a loud quarter-second sample is rejected. -/
theorem validateAudio_decision_witness :
    validateAudio none { bytes := [0], mime := "" } = false
    ∧ validateAudio (some { samples := [1], duration := 1 })
        { bytes := List.replicate 500 0, mime := "audio/webm" } = true
    ∧ validateAudio (some { samples := [1], duration := 1/4 })
        { bytes := List.replicate 500 0, mime := "audio/webm" } = false := by
  have h500 : Blob.size { bytes := List.replicate 500 0, mime := "audio/webm" } = 500 :=
    List.length_replicate _ _
  have hsize : (500 : Nat) ≤ Blob.size { bytes := List.replicate 500 0, mime := "audio/webm" } := by
    omega
  refine ⟨(validateAudio_decision { bytes := [0], mime := "" }
      { samples := [1], duration := 1 } none).1 (by simp [Blob.size]), ?_, ?_⟩
  · exact (validateAudio_decision _ { samples := [1], duration := 1 }
      (some { samples := [1], duration := 1 })).2.1 hsize |>.mpr
      (by norm_num [averageAmplitude, sumAbs])
  · exact (validateAudio_decision _ { samples := [1], duration := 1/4 }
      (some { samples := [1], duration := 1/4 })).2.2 hsize (by norm_num)

/-- C6.  When decoding fails, `validateAudio` does not throw and decides
from the byte size alone: it accepts exactly when the size exceeds 500
bytes and the estimated duration `size / 16000` exceeds 0.5 seconds. -/
theorem validateAudio_decode_failure (audioBlob : Blob) :
    validateAudio none audioBlob =
      decide (500 < audioBlob.size ∧ (audioBlob.size : ℚ) / 16000 > 0.5) := by
  by_cases hs : audioBlob.size < 500
  · have : ¬ (500 < audioBlob.size ∧ (audioBlob.size : ℚ) / 16000 > 0.5) := by
      rintro ⟨h1, -⟩; omega
    simp [validateAudio, validateAudioRun, hs, this]
  · simp [validateAudio, validateAudioRun, hs]

/-- C9 (code bug).  The validator is supposed to close its transient
decode `AudioContext` on every path; on the decode-failure path of a
600-byte clip the allocated context is never closed (the `catch` block
returns without `close()`), while the success path does close it. -/
theorem validateAudio_context_leak :
    (validateAudioRun none { bytes := List.replicate 600 0, mime := "audio/webm" }).2
        = [CtxEvent.allocated]
    ∧ CtxEvent.closed ∉
        (validateAudioRun none { bytes := List.replicate 600 0, mime := "audio/webm" }).2
    ∧ (validateAudioRun (some { samples := [1], duration := 1 })
        { bytes := List.replicate 600 0, mime := "audio/webm" }).2
        = [CtxEvent.allocated, CtxEvent.closed] := by
  have h600 : Blob.size { bytes := List.replicate 600 0, mime := "audio/webm" } = 600 :=
    List.length_replicate _ _
  have hs : ¬ Blob.size { bytes := List.replicate 600 0, mime := "audio/webm" } < 500 := by
    omega
  have e1 : (validateAudioRun none
      { bytes := List.replicate 600 0, mime := "audio/webm" }).2 = [CtxEvent.allocated] := by
    unfold validateAudioRun
    rw [if_neg hs]
  have e2 : (validateAudioRun (some { samples := [1], duration := 1 })
      { bytes := List.replicate 600 0, mime := "audio/webm" }).2
        = [CtxEvent.allocated, CtxEvent.closed] := by
    unfold validateAudioRun
    rw [if_neg hs]
  exact ⟨e1, by rw [e1]; simp, e2⟩

/-! ## C5, C8, C10 — guard behaviour -/

/-- C5.  Calling `startRecording()` while a recording is already active
returns failure immediately, changes nothing, and performs no effect — in
particular no device acquisition (`getUserMedia`) is attempted. -/
theorem startRecording_refused_while_active (env : Env) (s : VMState)
    (h : s.isRecordingActive = true) :
    startRecording env s = (false, s, []) := by
  simp [startRecording, h]

/-- C8.  Once the internal recording flag has been flipped off (the
Stopping transition), a chunk delivered by `ondataavailable` leaves the
state — in particular the chunk buffer — unchanged. -/
theorem no_chunk_after_stop (s : VMState) (eventData : Chunk)
    (h : s.isRecordingActive = false) :
    onDataAvailable s eventData = s := by
  simp [onDataAvailable, h]

lemma stopRecording_noop_aux (s : VMState)
    (h1 : s.isRecordingActive = false) (h2 : s.storeIsRecording = false)
    (h3 : s.audioStream = none) (h4 : recorderIsRecording s = false) :
    stopRecording s = (s, []) := by
  simp [stopRecording, h1, h2, h3, h4]

/-- C10.  With the internal flag off, the store flag off, no stream held
and the recorder not in `'recording'`, `stopRecording()` is a complete
no-op: state unchanged, no effects. -/
theorem stopRecording_full_noop (s : VMState)
    (h1 : s.isRecordingActive = false) (h2 : s.storeIsRecording = false)
    (h3 : s.audioStream = none) (h4 : recorderIsRecording s = false) :
    stopRecording s = (s, []) :=
  stopRecording_noop_aux s h1 h2 h3 h4

@[simp] lemma trackStops_cons (e : Effect) (es : List Effect) :
    trackStops (e :: es) = (if e = Effect.trackStop then 1 else 0) + trackStops es := by
  by_cases h : e = Effect.trackStop <;> simp [trackStops, h, Nat.add_comm]

@[simp] lemma liveCount_none : liveCount none = 0 := rfl

@[simp] lemma liveCount_some (ts : List Track) :
    liveCount (some ts) = (ts.filter (fun t => t.readyState = TrackState.live)).length := rfl

/-! ## C4 — no double release of the device stream -/

lemma stopRecording_active_state (s : VMState) (h : s.isRecordingActive = true) :
    (stopRecording s).1.isRecordingActive = false
    ∧ (stopRecording s).1.recordingTimer = none
    ∧ (stopRecording s).1.storeIsRecording = false
    ∧ (stopRecording s).1.audioStream = none
    ∧ recorderIsRecording (stopRecording s).1 = false
    ∧ trackStops (stopRecording s).2 = liveCount s.audioStream := by
  rcases s with ⟨mr, as, rt, ach, ira, actx, gn, cn, sir, rd, un, ms⟩
  simp only at h
  subst h
  rcases as with _ | ts <;> rcases actx with _ | c <;> rcases mr with _ | r <;>
    first
    | (cases c <;> cases r <;> rename_i rs _ <;> cases rs <;>
        simp [stopRecording, setRecordingState, closingAudioContext,
          stopRecorderIfRecording, stopTracks_effects, recorderIsRecording])
    | (cases c <;>
        simp [stopRecording, setRecordingState, closingAudioContext,
          stopRecorderIfRecording, stopTracks_effects, recorderIsRecording])
    | (cases r <;> rename_i rs _ <;> cases rs <;>
        simp [stopRecording, setRecordingState, closingAudioContext,
          stopRecorderIfRecording, stopTracks_effects, recorderIsRecording])
    | simp [stopRecording, setRecordingState, closingAudioContext,
        stopRecorderIfRecording, stopTracks_effects, recorderIsRecording]

/-- C4.  From a Recording state, two back-to-back `stopRecording()` calls
(user stop and the 30-second auto-timeout's stop) release the device
stream at most once: the first call flips the recording flag before any
awaited teardown step and stops each live track exactly once; the second
call takes the not-recording branch, finds the store flag cleared, the
stream nulled and the recorder inactive, and performs nothing — no second
track release, and no release ever targets an already-stopped track. -/
theorem stop_stop_releases_once (s : VMState) (h : s.isRecordingActive = true) :
    stopRecording (stopRecording s).1 = ((stopRecording s).1, [])
    ∧ trackStops ((stopRecording s).2 ++ (stopRecording (stopRecording s).1).2)
        = liveCount s.audioStream := by
  obtain ⟨h1, h2, h3, h4, h5, h6⟩ := stopRecording_active_state s h
  have hnoop : stopRecording (stopRecording s).1 = ((stopRecording s).1, []) :=
    stopRecording_noop_aux _ h1 h3 h4 h5
  refine ⟨hnoop, ?_⟩
  rw [hnoop]
  simpa using h6

/-- Witness for C4: from a live two-track recording state, the double stop
stops each live track exactly once and the second call is inert. -/
theorem stop_stop_releases_once_witness :
    (stopRecording (stopRecording
        { mediaRecorder := some { state := RecState.recording, mimeType := "audio/webm" }
          audioStream := some [{ readyState := TrackState.live }, { readyState := TrackState.live }]
          recordingTimer := some 3
          audioChunks := [{ data := [1, 2, 3] }]
          isRecordingActive := true
          audioContext := some CtxState.running
          gainNode := true
          compressorNode := true
          storeIsRecording := true
          recordingDuration := 3
          userNickname := "alice"
          messages := [] }).1
      = ((stopRecording
        { mediaRecorder := some { state := RecState.recording, mimeType := "audio/webm" }
          audioStream := some [{ readyState := TrackState.live }, { readyState := TrackState.live }]
          recordingTimer := some 3
          audioChunks := [{ data := [1, 2, 3] }]
          isRecordingActive := true
          audioContext := some CtxState.running
          gainNode := true
          compressorNode := true
          storeIsRecording := true
          recordingDuration := 3
          userNickname := "alice"
          messages := [] }).1, []))
    ∧ trackStops ((stopRecording
        { mediaRecorder := some { state := RecState.recording, mimeType := "audio/webm" }
          audioStream := some [{ readyState := TrackState.live }, { readyState := TrackState.live }]
          recordingTimer := some 3
          audioChunks := [{ data := [1, 2, 3] }]
          isRecordingActive := true
          audioContext := some CtxState.running
          gainNode := true
          compressorNode := true
          storeIsRecording := true
          recordingDuration := 3
          userNickname := "alice"
          messages := [] }).2 ++ (stopRecording (stopRecording
        { mediaRecorder := some { state := RecState.recording, mimeType := "audio/webm" }
          audioStream := some [{ readyState := TrackState.live }, { readyState := TrackState.live }]
          recordingTimer := some 3
          audioChunks := [{ data := [1, 2, 3] }]
          isRecordingActive := true
          audioContext := some CtxState.running
          gainNode := true
          compressorNode := true
          storeIsRecording := true
          recordingDuration := 3
          userNickname := "alice"
          messages := [] }).1).2) = 2 := by
  have := stop_stop_releases_once
    { mediaRecorder := some { state := RecState.recording, mimeType := "audio/webm" }
      audioStream := some [{ readyState := TrackState.live }, { readyState := TrackState.live }]
      recordingTimer := some 3
      audioChunks := [{ data := [1, 2, 3] }]
      isRecordingActive := true
      audioContext := some CtxState.running
      gainNode := true
      compressorNode := true
      storeIsRecording := true
      recordingDuration := 3
      userNickname := "alice"
      messages := [] } rfl
  exact ⟨this.1, by rw [this.2]; rfl⟩

/-! ## C7 — forceStop is idempotent -/

/-- C7.  `forceStop()` is idempotent from any starting state: a second call
leaves exactly the state the first produced, and that terminal state has
every live track stopped (one release each), the timer cleared, the audio
context closed (never left running), the recording flag inactive and the
UI recording flag false. -/
theorem forceStop_idempotent (s : VMState) :
    (forceStop (forceStop s).1).1 = (forceStop s).1
    ∧ (forceStop s).1.isRecordingActive = false
    ∧ (forceStop s).1.recordingTimer = none
    ∧ (forceStop s).1.audioStream = none
    ∧ (forceStop s).1.storeIsRecording = false
    ∧ (forceStop s).1.audioContext ≠ some CtxState.running
    ∧ trackStops (forceStop s).2 = liveCount s.audioStream := by
  rcases s with ⟨mr, as, rt, ach, ira, actx, gn, cn, sir, rd, un, ms⟩
  rcases as with _ | ts <;> rcases actx with _ | c <;> rcases mr with _ | r <;>
    first
    | (cases c <;> cases r <;> rename_i rs _ <;> cases rs <;>
        simp [forceStop, setRecordingState, closingAudioContext,
          stopRecorderIfNotInactive, stopTracks_effects])
    | (cases c <;>
        simp [forceStop, setRecordingState, closingAudioContext,
          stopRecorderIfNotInactive, stopTracks_effects])
    | (cases r <;> rename_i rs _ <;> cases rs <;>
        simp [forceStop, setRecordingState, closingAudioContext,
          stopRecorderIfNotInactive, stopTracks_effects])
    | simp [forceStop, setRecordingState, closingAudioContext,
        stopRecorderIfNotInactive, stopTracks_effects]

/-! ## C2 — round trip to the message sink -/

@[simp] lemma sentPayloads_nil : sentPayloads [] = [] := rfl

@[simp] lemma sentPayloads_append (a b : List Effect) :
    sentPayloads (a ++ b) = sentPayloads a ++ sentPayloads b := by
  simp [sentPayloads]

@[simp] lemma sentPayloads_sink (m : VoiceMessage) (es : List Effect) :
    sentPayloads (Effect.sinkAccept m :: es) = m :: sentPayloads es := rfl

@[simp] lemma sentPayloads_storeAdd (m : VoiceMessage) (es : List Effect) :
    sentPayloads (Effect.storeAdd m :: es) = sentPayloads es := rfl

@[simp] lemma sentPayloads_setRecordingState (b : Bool) (es : List Effect) :
    sentPayloads (Effect.setRecordingState b :: es) = sentPayloads es := rfl

@[simp] lemma sentPayloads_trackStop (es : List Effect) :
    sentPayloads (Effect.trackStop :: es) = sentPayloads es := rfl

@[simp] lemma sentPayloads_ctxClose (es : List Effect) :
    sentPayloads (Effect.ctxClose :: es) = sentPayloads es := rfl

@[simp] lemma sentPayloads_recorderStop (es : List Effect) :
    sentPayloads (Effect.recorderStop :: es) = sentPayloads es := rfl

@[simp] lemma sentPayloads_alert (es : List Effect) :
    sentPayloads (Effect.alertNoAudio :: es) = sentPayloads es := rfl

@[simp] lemma sentPayloads_updateDuration (n : Nat) (es : List Effect) :
    sentPayloads (Effect.updateDuration n :: es) = sentPayloads es := rfl

@[simp] lemma sentPayloads_schedule (n : Nat) (es : List Effect) :
    sentPayloads (Effect.scheduleProcess n :: es) = sentPayloads es := rfl

@[simp] lemma sentPayloads_replicate_trackStop (n : Nat) :
    sentPayloads (List.replicate n Effect.trackStop) = [] := by
  induction n with
  | zero => rfl
  | succ n ih => simp [List.replicate_succ, ih]

/-- `cleanup` never hands anything to the message sink. -/
lemma sentPayloads_cleanup (s : VMState) : sentPayloads (cleanup s).2 = [] := by
  rcases s with ⟨mr, as, rt, ach, ira, actx, gn, cn, sir, rd, un, ms⟩
  rcases as with _ | ts <;> rcases actx with _ | c <;> rcases mr with _ | r <;>
    first
    | (cases c <;> cases r <;> rename_i rs _ <;> cases rs <;>
        simp [cleanup, setRecordingState, closingAudioContext,
          stopRecorderIfNotInactive, stopTracks_effects])
    | (cases c <;>
        simp [cleanup, setRecordingState, closingAudioContext,
          stopRecorderIfNotInactive, stopTracks_effects])
    | (cases r <;> rename_i rs _ <;> cases rs <;>
        simp [cleanup, setRecordingState, closingAudioContext,
          stopRecorderIfNotInactive, stopTracks_effects])
    | simp [cleanup, setRecordingState, closingAudioContext,
        stopRecorderIfNotInactive, stopTracks_effects]

/-- C2.  A session reaching processing with at least one captured chunk
whose clip passes validation hands exactly one payload to the realtime
message sink, and that payload's (integer) duration is the caller clamp
`max 1 (min 30 ·)` of the estimated duration, hence lies in `[1, 30]`.  A
session whose clip fails validation, or that reaches processing with zero
chunks, hands nothing to the sink. -/
theorem processRecording_roundtrip (env : Env) (s : VMState) :
    (s.audioChunks ≠ [] → validateAudio env.decode (recordingBlob s) = true →
      ∃ m, sentPayloads (processRecording env s).2 = [m]
        ∧ m.duration = max 1 (min 30 (getAudioDuration env (recordingBlob s)))
        ∧ 1 ≤ m.duration ∧ m.duration ≤ 30)
    ∧ ((s.audioChunks = [] ∨ validateAudio env.decode (recordingBlob s) = false) →
      sentPayloads (processRecording env s).2 = []) := by
  constructor
  · intro hne hv
    have hlen : ¬ s.audioChunks.length = 0 := by
      simpa [List.length_eq_zero] using hne
    refine ⟨{ id := toString env.now
              type := "VOICE_MESSAGE"
              nickname := s.userNickname
              audioData := ((readAsDataURL (recordingBlob s)).splitOn ",").getD 1 ""
              mimeType := jsOrStr (some (recordingBlob s).mime) "audio/webm"
              duration := max 1 (min 30 (getAudioDuration env (recordingBlob s)))
              timestamp := env.now
              isOwn := true }, ?_, rfl, le_max_left _ _,
            max_le (by norm_num) (min_le_left _ _)⟩
    simp [processRecording, hlen, hv, createVoiceMessage, sentPayloads_cleanup]
  · rintro (hz | hv)
    · have hlen : s.audioChunks.length = 0 := by simp [hz]
      simp [processRecording, hlen, sentPayloads_cleanup]
    · by_cases hlen : s.audioChunks.length = 0
      · simp [processRecording, hlen, sentPayloads_cleanup]
      · simp [processRecording, hlen, hv, sentPayloads_cleanup]

/-- Witness for C2: a 500-byte single-chunk clip decoding to a loud
1-second sample yields exactly one sink payload, of duration 2 (the
rounded 2-second metadata duration, inside `[1, 30]`). -/
theorem processRecording_roundtrip_witness :
    List.map VoiceMessage.duration (sentPayloads (processRecording
      { decode := some { samples := [1], duration := 1 }
        metadataDuration := some 2
        media := none
        isTypeSupported := fun _ => false
        processingOk := false
        processedTracks := []
        now := 17 }
      { mediaRecorder := some { state := RecState.inactive, mimeType := "audio/webm" }
        audioStream := none
        recordingTimer := none
        audioChunks := [{ data := List.replicate 500 0 }]
        isRecordingActive := false
        audioContext := none
        gainNode := false
        compressorNode := false
        storeIsRecording := false
        recordingDuration := 0
        userNickname := "alice"
        messages := [] }).2) = [2] := by
  have hblob : recordingBlob
      { mediaRecorder := some { state := RecState.inactive, mimeType := "audio/webm" }
        audioStream := none
        recordingTimer := none
        audioChunks := [{ data := List.replicate 500 0 }]
        isRecordingActive := false
        audioContext := none
        gainNode := false
        compressorNode := false
        storeIsRecording := false
        recordingDuration := 0
        userNickname := "alice"
        messages := [] }
      = { bytes := List.replicate 500 0, mime := "audio/webm" } := by
    simp [recordingBlob, jsOrStr]
  have h500 : Blob.size { bytes := List.replicate 500 0, mime := "audio/webm" } = 500 :=
    List.length_replicate _ _
  have hv : validateAudio (some { samples := [1], duration := 1 })
      { bytes := List.replicate 500 0, mime := "audio/webm" } = true := by
    unfold validateAudio validateAudioRun
    rw [if_neg (by omega)]
    simp [analyzeSamples_eq]
    norm_num
  obtain ⟨m, h1, hd, -, -⟩ :=
    (processRecording_roundtrip
      { decode := some { samples := [1], duration := 1 }
        metadataDuration := some 2
        media := none
        isTypeSupported := fun _ => false
        processingOk := false
        processedTracks := []
        now := 17 }
      { mediaRecorder := some { state := RecState.inactive, mimeType := "audio/webm" }
        audioStream := none
        recordingTimer := none
        audioChunks := [{ data := List.replicate 500 0 }]
        isRecordingActive := false
        audioContext := none
        gainNode := false
        compressorNode := false
        storeIsRecording := false
        recordingDuration := 0
        userNickname := "alice"
        messages := [] }).1 (by decide) (by rw [hblob]; exact hv)
  rw [h1, List.map_cons, List.map_nil, hd, hblob]
  norm_num [getAudioDuration]

/-! ## C3 — timer ticks and the 30-second auto-stop -/

/-- A freshly started recording (counter 0) satisfies the timer invariant. -/
lemma timerInv_start (s : VMState) (h : s.recordingTimer = some 0) : timerInv s := by
  intro d hd _
  rw [h] at hd
  cases Option.some.inj hd
  omega

lemma forceStop_no_updateDuration (s : VMState) (v : Nat) :
    Effect.updateDuration v ∉ (forceStop s).2 := by
  rcases s with ⟨mr, as, rt, ach, ira, actx, gn, cn, sir, rd, un, ms⟩
  rcases as with _ | ts <;> rcases actx with _ | c <;> rcases mr with _ | r <;>
    first
    | (cases c <;> cases r <;> rename_i rs _ <;> cases rs <;>
        simp [forceStop, setRecordingState, closingAudioContext,
          stopRecorderIfNotInactive, stopTracks_effects, List.mem_replicate])
    | (cases c <;>
        simp [forceStop, setRecordingState, closingAudioContext,
          stopRecorderIfNotInactive, stopTracks_effects, List.mem_replicate])
    | (cases r <;> rename_i rs _ <;> cases rs <;>
        simp [forceStop, setRecordingState, closingAudioContext,
          stopRecorderIfNotInactive, stopTracks_effects, List.mem_replicate])
    | simp [forceStop, setRecordingState, closingAudioContext,
        stopRecorderIfNotInactive, stopTracks_effects, List.mem_replicate]

lemma stopRecording_no_updateDuration (s : VMState) (v : Nat) :
    Effect.updateDuration v ∉ (stopRecording s).2 := by
  by_cases ha : s.isRecordingActive = false
  · by_cases hg : s.storeIsRecording = true ∨ s.audioStream ≠ none ∨
        recorderIsRecording s = true
    · simpa [stopRecording, ha, hg] using forceStop_no_updateDuration s v
    · simp [stopRecording, ha, hg]
  · rcases s with ⟨mr, as, rt, ach, ira, actx, gn, cn, sir, rd, un, ms⟩
    simp only at ha
    rcases as with _ | ts <;> rcases actx with _ | c <;> rcases mr with _ | r <;>
      first
      | (cases c <;> cases r <;> rename_i rs _ <;> cases rs <;>
          simp [stopRecording, ha, setRecordingState, closingAudioContext,
            stopRecorderIfRecording, stopTracks_effects, List.mem_replicate])
      | (cases c <;>
          simp [stopRecording, ha, setRecordingState, closingAudioContext,
            stopRecorderIfRecording, stopTracks_effects, List.mem_replicate])
      | (cases r <;> rename_i rs _ <;> cases rs <;>
          simp [stopRecording, ha, setRecordingState, closingAudioContext,
            stopRecorderIfRecording, stopTracks_effects, List.mem_replicate])
      | simp [stopRecording, ha, setRecordingState, closingAudioContext,
          stopRecorderIfRecording, stopTracks_effects, List.mem_replicate]

/-- Unfolding of a tick from an active recording state with counter `d`. -/
lemma timerTick_active (s : VMState) (d : Nat) (ht : s.recordingTimer = some d)
    (ha : s.isRecordingActive = true) :
    timerTick s =
      if d + 1 > 30 then
        ((stopRecording
            { s with recordingTimer := some (d + 1), recordingDuration := d + 1 }).1,
         Effect.updateDuration (d + 1) ::
           (stopRecording
             { s with recordingTimer := some (d + 1), recordingDuration := d + 1 }).2)
      else
        ({ s with recordingTimer := some (d + 1), recordingDuration := d + 1 },
         [Effect.updateDuration (d + 1)]) := by
  have ha' : ¬ s.isRecordingActive = false := by simp [ha]
  by_cases hd : d + 1 > 30 <;>
    simp [timerTick, ht, ha', hd, updateRecordingDuration]

lemma timerInv_preserved (s : VMState) (h : timerInv s) : timerInv (tickState s) := by
  rcases ht : s.recordingTimer with _ | d
  · have he : tickState s = s := by simp [tickState, timerTick, ht]
    rwa [he]
  · by_cases ha : s.isRecordingActive = false
    · have he : tickState s = { s with recordingTimer := none } := by
        simp [tickState, timerTick, ht, ha]
      rw [he]
      intro e hee
      simp at hee
    · have ha' : s.isRecordingActive = true := by
        cases hx : s.isRecordingActive
        · exact absurd hx ha
        · rfl
      rw [tickState, timerTick_active s d ht ha']
      by_cases hd : d + 1 > 30
      · rw [if_pos hd]
        intro e hee _
        rw [(stopRecording_active_state
          { s with recordingTimer := some (d + 1), recordingDuration := d + 1 }
          (by exact ha')).2.1] at hee
        cases hee
      · rw [if_neg hd]
        intro e hee _
        simp at hee
        omega

lemma runTicks_updateDuration_le (n : Nat) (s : VMState) (h : timerInv s) :
    ∀ v, Effect.updateDuration v ∈ (runTicks n s).2 → v ≤ 31 := by
  induction n generalizing s with
  | zero => simp [runTicks]
  | succ n ih =>
    intro v hv
    rcases List.mem_append.mp (by simpa [runTicks] using hv) with h1 | h2
    · rcases ht : s.recordingTimer with _ | d
      · simp [timerTick, ht] at h1
      · by_cases ha : s.isRecordingActive = false
        · simp [timerTick, ht, ha] at h1
        · have ha' : s.isRecordingActive = true := by
            cases hx : s.isRecordingActive
            · exact absurd hx ha
            · rfl
          have hde := h d ht ha'
          rw [timerTick_active s d ht ha'] at h1
          by_cases hd : d + 1 > 30
          · rw [if_pos hd] at h1
            rcases List.mem_cons.mp h1 with h3 | h3
            · cases h3
              omega
            · exact absurd h3 (stopRecording_no_updateDuration _ v)
          · rw [if_neg hd] at h1
            simp at h1
            omega
    · exact ih (tickState s) (timerInv_preserved s h) v h2

/-- C3 (amended).  While Recording, each 1-second tick first notifies the
store with a counter exactly one larger than before; when the new value is
still ≤ 30 the session keeps recording with the incremented counter; the
tick auto-invokes `stopRecording()` — without user action — on the tick
where the counter first exceeds 30 (i.e. at value 31, not at 30), leaving
the session stopped with the timer cleared; consequently, from any state
satisfying the timer invariant, no elapsed-seconds notification ever
exceeds 31. -/
theorem timer_tick_autostop (s : VMState) (d : Nat)
    (ht : s.recordingTimer = some d) (ha : s.isRecordingActive = true) :
    (timerTick s).2.head? = some (Effect.updateDuration (d + 1))
    ∧ (d + 1 ≤ 30 →
        timerTick s = ({ s with recordingTimer := some (d + 1), recordingDuration := d + 1 },
          [Effect.updateDuration (d + 1)]))
    ∧ (30 < d + 1 →
        (tickState s).isRecordingActive = false ∧ (tickState s).recordingTimer = none)
    ∧ (∀ s', timerInv s' → ∀ n v, Effect.updateDuration v ∈ (runTicks n s').2 → v ≤ 31) := by
  refine ⟨?_, ?_, ?_, fun s' h n v hv => runTicks_updateDuration_le n s' h v hv⟩
  · rw [timerTick_active s d ht ha]
    by_cases hd : d + 1 > 30
    · rw [if_pos hd]
      rfl
    · rw [if_neg hd]
      rfl
  · intro hd
    rw [timerTick_active s d ht ha, if_neg (by omega)]
  · intro hd
    rw [tickState, timerTick_active s d ht ha, if_pos (by omega)]
    exact ⟨(stopRecording_active_state _ (by exact ha)).1,
           (stopRecording_active_state _ (by exact ha)).2.1⟩

/-- Witness for C3 (amended) at a concrete state with counter 30: the tick
notifies 31 and auto-stops, and a 3-tick run from the fresh state stays
within the ≤ 31 bound. -/
theorem timer_tick_autostop_witness :
    (timerTick { recordingStart with recordingTimer := some 30 }).2.head?
        = some (Effect.updateDuration 31)
    ∧ (tickState { recordingStart with recordingTimer := some 30 }).isRecordingActive = false
    ∧ (tickState { recordingStart with recordingTimer := some 30 }).recordingTimer = none
    ∧ (Effect.updateDuration 1 ∈ (runTicks 3 recordingStart).2 → (1 : Nat) ≤ 31) := by
  have T := timer_tick_autostop { recordingStart with recordingTimer := some 30 } 30 rfl rfl
  exact ⟨T.1, (T.2.2.1 (by omega)).1, (T.2.2.1 (by omega)).2,
         T.2.2.2 recordingStart (timerInv_start recordingStart rfl) 3 1⟩

/-- C3 counterexample: after 30 ticks from a fresh Recording session the
elapsed counter is 30 and the session is still Recording — `stop()` was
not auto-invoked when elapsed reached 30 — and the 31st tick emits an
elapsed-seconds notification of 31, exceeding 30 while Recording. -/
theorem timer_not_stopped_at_30 :
    (tickState^[30] recordingStart).isRecordingActive = true
    ∧ (tickState^[30] recordingStart).recordingDuration = 30
    ∧ Effect.updateDuration 31 ∈ (timerTick (tickState^[30] recordingStart)).2 := by
  decide

/-- Witness for C5: starting while `recordingStart` is active fails with no
state change and no effects (so no device acquisition). -/
theorem startRecording_refused_while_active_witness :
    startRecording probeEnv recordingStart = (false, recordingStart, []) :=
  startRecording_refused_while_active probeEnv recordingStart rfl

/-- Witness for C8: after the Stopping flip, a delivered 1-byte chunk
leaves the state unchanged. -/
theorem no_chunk_after_stop_witness :
    onDataAvailable { recordingStart with isRecordingActive := false } { data := [5] }
      = { recordingStart with isRecordingActive := false } :=
  no_chunk_after_stop { recordingStart with isRecordingActive := false } { data := [5] } rfl

/-- Witness for C10: on the fully idle state, `stopRecording()` returns the
state unchanged with no effects. -/
theorem stopRecording_full_noop_witness :
    stopRecording idleState = (idleState, []) :=
  stopRecording_full_noop idleState rfl rfl rfl rfl
